import Mathlib

/-!
Verification of the crawl-service repository: a shallow embedding of the
URL classification helpers, the `EcommerceCrawler` router/handlers and
crawl loop (crawlee.service), and the `CrawleeController` queue front end
(service.ts), together with theorems settling the frozen claims about them.

Conventions of the embedding:
* JavaScript strings are Lean `String`s; machine numbers are `Nat`/`Int`.
  String primitives are spelled out over `String.data` (`List Char`) so
  that every definition evaluates inside the kernel.
* The WHATWG `URL` constructor is modelled by `parseAbs`/`serializeUrl`/
  `normalizeUrl` on the http/https subset actually exercised by the
  crawler (absolute http(s) URLs, path-absolute references, `./`-relative
  references and query-only references).  `new URL(...)` throwing is
  modelled as `Option.none`; `normalizeUrl` returns `""` on failure the
  way the source's catch block does.
* The Playwright page is an external collaborator; it is modelled by a
  `World` of per-URL observations (which selectors attach, which hrefs
  the product cards carry, whether the consent button is dismissable,
  how many pagination controls exist, the post-click URL).
* Thrown-and-caught JS exceptions are modelled by the control flow of the
  corresponding Lean function: a branch that the source reaches only via
  its catch handler is a branch of the Lean definition.
-/

/-! ## String primitives (kernel-evaluable spellings of the JS operations) -/

/-- Lowercasing, as the `i` regex flag and WHATWG host canonicalization do. -/
def lowerStr (s : String) : String := ⟨s.data.map Char.toLower⟩

/-- `s.startsWith p` (JS `String#startsWith`, regex `^` anchoring). -/
def strStarts (s p : String) : Bool := p.data.isPrefixOf s.data

/-- Drop the first `n` characters of `s`. -/
def strDrop (s : String) (n : Nat) : String := ⟨s.data.drop n⟩

/-- Longest prefix of `s` whose characters satisfy `f`. -/
def strTakeWhile (s : String) (f : Char → Bool) : String := ⟨s.data.takeWhile f⟩

/-- Character count of `s`. -/
def strLen (s : String) : Nat := s.data.length

/-- Split a character list at every occurrence of `sep`
(JS `String#split` with a one-character separator). -/
def splitOnChar (sep : Char) : List Char → List (List Char)
  | [] => [[]]
  | c :: cs =>
    let r := splitOnChar sep cs
    if c == sep then [] :: r
    else
      match r with
      | [] => [[c]]
      | h :: t => (c :: h) :: t

/-- JS `hostname.split(".")`. -/
def splitDots (s : String) : List String := (splitOnChar '.' s.data).map String.mk

/-- JS `labels.join(".")` (the regex source joins with `\.`, i.e. literal
dots once the escaping is interpreted). -/
def joinDots : List String → String
  | [] => ""
  | [s] => s
  | s :: rest => s ++ "." ++ joinDots rest

/-! ## URL parsing and normalization (src `url` module usage) -/

/-- Hostname/label characters matched by the source's regex class `[\w-]`
(JavaScript `\w` is ASCII `[A-Za-z0-9_]`, plus the literal hyphen). -/
def isWordDash (c : Char) : Bool :=
  c.isAlphanum || c == '_' || c == '-'

/-- The components of a parsed absolute http(s) URL, as exposed by the
WHATWG `URL` object: `scheme` (http or https), lowercased `host`
(`urlParts.hostname`), and the raw remainder `pathQuery` (path, query and
fragment as written). -/
structure UrlParts where
  scheme : String
  host : String
  pathQuery : String
deriving DecidableEq

/-- Model of `new URL(s)` for absolute http(s) URLs: `none` when the
constructor would throw (no http(s) scheme or empty host). -/
def parseAbs (s : String) : Option UrlParts :=
  let low := lowerStr s
  let schemeRest : String × String :=
    if strStarts low "https://" then ("https", strDrop s 8)
    else if strStarts low "http://" then ("http", strDrop s 7)
    else ("", s)
  if schemeRest.1.data.isEmpty then none
  else
    let rest := schemeRest.2
    let host := strTakeWhile rest (fun c => !(c == '/') && !(c == '?') && !(c == '#') && !(c == ':'))
    if host.data.isEmpty then none
    else some { scheme := schemeRest.1, host := lowerStr host, pathQuery := strDrop rest (strLen host) }

/-- Model of `URL#href` serialization: empty or query-only paths gain the
leading `/` the WHATWG serializer adds. -/
def serializeUrl (u : UrlParts) : String :=
  u.scheme ++ "://" ++ u.host ++
    (if u.pathQuery.data.isEmpty then "/"
     else if strStarts u.pathQuery "/" then u.pathQuery
     else "/" ++ u.pathQuery)

/-- Directory of a path: everything up to and including the last `/`
(used for relative-reference resolution). -/
def dirOf (path : String) : String :=
  let parts := (splitOnChar '/' path.data).map String.mk
  if parts.length ≤ 1 then "/"
  else joinSlashes parts.dropLast ++ "/"
where
  /-- JS `parts.join("/")`. -/
  joinSlashes : List String → String
    | [] => ""
    | [s] => s
    | s :: rest => s ++ "/" ++ joinSlashes rest

/-- Embedding of the source's `normalizeUrl(url, baseUrl)`:
`new URL(url, baseUrl).href`, returning `""` when the constructor throws
(the source's catch block).  Covers the reference forms the crawler
produces: absolute http(s) URLs, path-absolute references, `./`-relative
references, and query/fragment-only references.  Dot-dot segments and
protocol-relative references are outside the exercised subset and
resolve to `""`. -/
def normalizeUrl (url baseUrl : String) : String :=
  match parseAbs url with
  | some u => serializeUrl u
  | none =>
    match parseAbs baseUrl with
    | none => ""
    | some b =>
      if strStarts url "//" then ""
      else
        let basePath :=
          let p := strTakeWhile b.pathQuery (fun c => !(c == '?') && !(c == '#'))
          if p.data.isEmpty then "/" else p
        if strStarts url "/" then serializeUrl { b with pathQuery := url }
        else
          let u' := if strStarts url "./" then strDrop url 2 else url
          if strStarts u' "?" || strStarts u' "#" then
            serializeUrl { b with pathQuery := basePath ++ u' }
          else
            serializeUrl { b with pathQuery := dirOf basePath ++ u' }

/-! ## URL classification (`createRegexFromUrl`, `isProductUrl`, `isListingUrl`) -/

/-- The label list of a pattern URL's hostname: `urlParts.hostname.split(".")`,
`none` when `new URL(url)` would throw. -/
def hostLabels (url : String) : Option (List String) :=
  (parseAbs url).map (fun u => splitDots u.host)

/-- Embedding of `createRegexFromUrl`: the regex
`^https?://[\w-]+\.<labels joined by escaped dots>` (flag `i`) is
represented by its remaining-domain label list
`hostname.split(".").slice(1)`; `regexTest` below gives the regex its
meaning.  `none` models the `URL` constructor throwing on a bad pattern. -/
def createRegexFromUrl (url : String) : Option (List String) :=
  (hostLabels url).map (fun labels => labels.drop 1)

/-- Semantics of `regex.test(candidate)` for the regex
`^https?://[\w-]+\.<rest joined by \.>` with the `i` flag: the
(lowercased) candidate must start with `http`, an optional `s`, `://`,
then a nonempty run of `[\w-]` characters followed by a literal `.` and
the joined remaining-domain string.  Because `.` is not in `[\w-]`, the
run of label characters before the required dot is uniquely determined,
so the existential regex match reduces to this direct check. -/
def regexTest (rest : List String) (candidate : String) : Bool :=
  let s := lowerStr candidate
  let restStr := lowerStr (joinDots rest)
  if strStarts s "http" then
    let s1 := strDrop s 4
    let s2 := if strStarts s1 "s" then strDrop s1 1 else s1
    if strStarts s2 "://" then
      let s3 := strDrop s2 3
      let label := strTakeWhile s3 isWordDash
      !label.data.isEmpty && strStarts (strDrop s3 (strLen label)) ("." ++ restStr)
    else false
  else false

/-- Embedding of `isProductUrl(url, patterns)`: some pattern's derived
regex accepts the URL. -/
def isProductUrl (url : String) (patterns : List String) : Bool :=
  patterns.any (fun p =>
    match createRegexFromUrl p with
    | some rest => regexTest rest url
    | none => false)

/-- Embedding of `isListingUrl(url, patterns)` — textually the same
algorithm as `isProductUrl`, only the pattern set differs at call sites. -/
def isListingUrl (url : String) (patterns : List String) : Bool :=
  patterns.any (fun p =>
    match createRegexFromUrl p with
    | some rest => regexTest rest url
    | none => false)

/-! ## EcommerceCrawler: page observations, session state, router handlers -/

/-- Observations a listing page offers the listing-route handler.
`cardsAttach`: `page.waitForSelector(productCardSelector)` succeeds;
`productHrefs`: the hrefs collected from the product cards by
`page.evaluate`; `acceptOk`: the `clickAcceptButton` helper runs to
completion (overlay removed, `#AcceptAll` attaches, becomes visible and
is clicked) rather than throwing; `nextCount`: `nextButton.count()`;
`clickOk`: `nextButton.first().click()` succeeds; `reloadOk`: the
post-click `waitForSelector(productCardSelector)` succeeds;
`nextPageUrl`: `page.url()` after the click. -/
structure ListingPage where
  cardsAttach : Bool
  productHrefs : List String
  acceptOk : Bool
  nextCount : Nat
  clickOk : Bool
  reloadOk : Bool
  nextPageUrl : String

/-- Observations a product page offers the product-route handler.
`nameFound` / `priceFound`: the configured name/price locators resolve so
`textContent()` returns; `eanLabelCount`: `locator("text=EAN").count()`;
`eanValueFound`: the sibling/ancestor-cell locator for the EAN value
resolves. -/
structure ProductPage where
  nameFound : Bool
  priceFound : Bool
  eanLabelCount : Nat
  eanValueFound : Bool

/-- The page driver: per-URL observations standing in for the browser.
`defaultLoaded` is `request.loadedUrl` on a default-route page (the
handler returns early on `none`); `defaultLinks` are the absolute anchor
URLs `enqueueLinks` collects there. -/
structure World where
  defaultLoaded : String → Option String
  defaultLinks : String → List String
  listingObs : String → ListingPage
  productObs : String → ProductPage

/-- A request in the Crawlee request queue: its URL (also its
`uniqueKey`) and its route label (`none` routes to the default handler). -/
structure Req where
  url : String
  label : Option String
deriving DecidableEq

/-- One crawl session's state.  Fields mirroring the source: `queue` and
`known` model the Crawlee `RequestQueue` (pending requests, and every
`uniqueKey` ever added — `addRequest` with a known key is a no-op);
`handled` counts handled requests (the quantity `maxRequestsPerCrawl`
bounds); `processedUrls` and `pageCount` are the `EcommerceCrawler`
instance fields of those names; `dataset` models the Crawlee `Dataset`
(the product handler's `Dataset.pushData` call is commented out in the
source, so nothing ever appends to it).  Observation fields, not present
in the source, recording what the claims talk about: `extractedOk`
counts products whose extraction completed without a caught error,
`listingVisits` logs the listing URLs handled, `clicks` counts
pagination click attempts. -/
structure CrawlState where
  queue : List Req
  known : List String
  handled : Nat
  processedUrls : List String
  pageCount : Nat
  dataset : List String
  extractedOk : Nat
  listingVisits : List String
  clicks : Nat
deriving DecidableEq

/-- `requestQueue.addRequest({url, uniqueKey: url, ...})`: appended unless
the uniqueKey is already known.  (The source passes `priority: 1` on the
listing re-enqueue, but the Crawlee `addRequest` options carry no such
field — `forefront` is the real option — so the request simply joins the
tail of the queue.) -/
def addRequest (s : CrawlState) (r : Req) : CrawlState :=
  if s.known.contains r.url then s
  else { s with queue := s.queue ++ [r], known := s.known ++ [r.url] }

/-- Embedding of the default handler's `transformRequestFunction`: given
the crawler's `processedUrls` and the candidate request URL, normalize it
against the loaded base URL; keep the request (and mark the normalized
URL processed) only when it is unseen and matches a listing pattern.
Returns the updated `processedUrls` and `some req.url` when kept, the
unchanged set and `none` when filtered out (the source returns `false`). -/
def transformRequest (ps : List String) (patterns : List String) (baseUrl reqUrl : String) :
    List String × Option String :=
  let url := normalizeUrl reqUrl baseUrl
  if !(ps.contains url) && isListingUrl url patterns then (ps ++ [url], some reqUrl)
  else (ps, none)

/-- One step of the default handler's `enqueueLinks` walk: state is the
session state paired with the number of requests enqueued so far (capped
by `limit: 100`); a link the transform keeps is enqueued under the
`listing` label. -/
def defaultEnqueueF (patterns : List String) (baseUrl : String) (p : CrawlState × Nat)
    (link : String) : CrawlState × Nat :=
  if p.2 < 100 then
    let t := transformRequest p.1.processedUrls patterns baseUrl link
    match t.2 with
    | some kept => (addRequest { p.1 with processedUrls := t.1 } ⟨kept, some "listing"⟩, p.2 + 1)
    | none => p
  else p

/-- The default handler's `enqueueLinks({limit: 100, transformRequestFunction,
label: "listing"})`: walk the page's links, apply the transform, and
enqueue kept requests until 100 have been enqueued. -/
def defaultEnqueue (patterns : List String) (baseUrl : String) (links : List String)
    (s : CrawlState) : CrawlState :=
  (links.foldl (defaultEnqueueF patterns baseUrl) (s, 0)).1

/-- The default route handler: bail out if `request.loadedUrl` is absent,
otherwise enqueue the page's links through the transform. -/
def defaultHandler (w : World) (patterns : List String) (s : CrawlState) (url : String) :
    CrawlState :=
  match w.defaultLoaded url with
  | none => s
  | some baseUrl => defaultEnqueue patterns baseUrl (w.defaultLinks url) s

/-- Enqueue one product href under the `product` label. -/
def enqueueProduct (st : CrawlState) (p : String) : CrawlState :=
  addRequest st ⟨p, some "product"⟩

/-- The listing handler's product enqueue:
`if (products.length > 0) enqueueLinks({limit: 1, urls: products, label: "product", requestQueue})`
— at most the first discovered href is added (subject to queue dedup). -/
def enqueueProducts (hrefs : List String) (s : CrawlState) : CrawlState :=
  if 0 < hrefs.length then (hrefs.take 1).foldl enqueueProduct s else s

/-- The `listing` route handler.  Mirrors the source's control flow: wait
for the card selector (failure is caught by the handler's outer catch and
ends the handler); extract and enqueue product hrefs through
`enqueueProducts`; run `clickAcceptButton` (its failure is NOT locally
caught — it propagates to the outer catch, skipping pagination); then,
if a next control exists, click it, wait for cards to reattach and
re-enqueue the landed URL as a `listing` request (failures of this block
are caught by the inner pagination catch and only logged). -/
def listingStep (w : World) (s : CrawlState) (url : String) : CrawlState :=
  let pg := w.listingObs url
  let s1 := { s with listingVisits := s.listingVisits ++ [url] }
  if !pg.cardsAttach then s1
  else
    let s2 := enqueueProducts pg.productHrefs s1
    if !pg.acceptOk then s2
    else if 0 < pg.nextCount then
      let s3 := { s2 with clicks := s2.clicks + 1 }
      if pg.clickOk && pg.reloadOk then addRequest s3 ⟨pg.nextPageUrl, some "listing"⟩ else s3
    else s2

/-- Outcome of one run of the `product` route handler: `failed` records
that an error was thrown and caught by the handler's catch (missing
name/price locator, missing EAN label or EAN value cell); `pushed`
records whether a dataset record was written — always `false`, because
the `Dataset.pushData` call in the source is commented out. -/
structure ProductOutcome where
  failed : Bool
  pushed : Bool
deriving DecidableEq

/-- The `product` route handler on one product page: read name and price
via the configured locators (a locator that never resolves throws), then
look for the `EAN` label — `count() = 0` throws `EAN label not found`,
and a label without a readable value cell throws from `textContent()`.
Every throw lands in the handler's own catch, so the handler always
completes; nothing is ever pushed to the dataset either way. -/
def productHandler (pg : ProductPage) : ProductOutcome :=
  if !pg.nameFound then ⟨true, false⟩
  else if !pg.priceFound then ⟨true, false⟩
  else if 0 < pg.eanLabelCount then
    if pg.eanValueFound then ⟨false, false⟩ else ⟨true, false⟩
  else ⟨true, false⟩

/-- Session-state effect of handling one `product` request: the
observation counter of successful extractions advances on success;
nothing else changes (in particular the dataset does not). -/
def productStep (w : World) (s : CrawlState) (url : String) : CrawlState :=
  if (productHandler (w.productObs url)).failed then s
  else { s with extractedOk := s.extractedOk + 1 }

/-- Dispatch of one dequeued request through the router: default route
for unlabelled requests, the `listing` and `product` routes by label.
The request counts as handled either way. -/
def crawlStep (w : World) (patterns : List String) (s : CrawlState) : CrawlState :=
  match s.queue with
  | [] => s
  | r :: rest =>
    let s' := { s with queue := rest, handled := s.handled + 1 }
    match r.label with
    | none => defaultHandler w patterns s' r.url
    | some l =>
      if l = "listing" then listingStep w s' r.url
      else if l = "product" then productStep w s' r.url
      else s'

/-- The crawler main loop with explicit fuel: keep handling queued
requests while fewer than `maxR` (`maxRequestsPerCrawl`) have been
handled.  Each iteration handles exactly one request, so `maxR` fuel is
enough for a run that starts at zero handled requests. -/
def crawlRunFuel (w : World) (patterns : List String) (maxR : Nat) :
    Nat → CrawlState → CrawlState
  | 0, s => s
  | Nat.succ fuel, s =>
    match s.queue with
    | [] => s
    | _ :: _ =>
      if s.handled < maxR then crawlRunFuel w patterns maxR fuel (crawlStep w patterns s)
      else s

/-- Embedding of the `CrawlerConfig` interface. -/
structure CrawlerConfig where
  startUrls : List String
  productListingUrlPatterns : List String
  productCardSelectors : String
  productUrlPatterns : List String
  paginationSelectors : String
  productLinkSelectors : List String
  maxPages : Option Nat
  nameSelector : String
  priceSelector : String

/-- Seed one start URL into the queue as an unlabelled request. -/
def seedRequest (s : CrawlState) (u : String) : CrawlState :=
  addRequest s ⟨u, none⟩

/-- The state every field initializer of `EcommerceCrawler` produces,
before any start URL is seeded. -/
def zeroState : CrawlState :=
  { queue := [], known := [], handled := 0, processedUrls := [], pageCount := 0,
    dataset := [], extractedOk := 0, listingVisits := [], clicks := 0 }

/-- Initial session state: `crawler.run(startUrls)` seeds the request
queue with the start URLs (unlabelled, deduplicated by uniqueKey); every
other field starts empty/zero, matching the field initializers of
`EcommerceCrawler`. -/
def initState (startUrls : List String) : CrawlState :=
  startUrls.foldl seedRequest zeroState

/-- Embedding of `EcommerceCrawler.run`: the constructor defaults
`maxPages` to 1000; the crawler is built with
`maxRequestsPerCrawl: maxPages * 2` and run on the start URLs; the final
session state (whose `dataset` models the `Dataset` the method returns)
is the result. -/
def ecrawlerRun (w : World) (cfg : CrawlerConfig) : CrawlState :=
  let maxR := (cfg.maxPages.getD 1000) * 2
  crawlRunFuel w cfg.productListingUrlPatterns maxR maxR (initState cfg.startUrls)

/-- Embedding of `EcommerceCrawler.crawleeId(id?)`: `if (id) return id;
return new Date().getTime();` — a JS number argument is truthy exactly
when it is present and nonzero, so `0` and a missing argument both fall
through to the current epoch-millisecond timestamp `now`. -/
def crawleeId (id : Option Int) (now : Int) : Int :=
  match id with
  | some i => if i ≠ 0 then i else now
  | none => now

/-! ## CrawleeController (service.ts): validation, job submission, job result -/

/-- The validation error codes `validateCrawlerConfig` can throw. -/
inductive ErrCode where
  | MISSING_CONFIG
  | INVALID_URLS
deriving DecidableEq

/-- The request body as the handler receives it: parsed JSON cast to
`CrawlerConfig`, so every field is only optionally present.  `urls` is
the field `validateCrawlerConfig` actually reads — note that the
`CrawlerConfig` interface declares `startUrls`, not `urls`. -/
structure ReqBody where
  urls : Option (List String)
  startUrls : Option (List String)
  productListingUrlPatterns : Option (List String)
  productCardSelectors : Option String
  productUrlPatterns : Option (List String)
  paginationSelectors : Option String
  productLinkSelectors : Option (List String)
  maxPages : Option Nat
  nameSelector : Option String
  priceSelector : Option String
deriving DecidableEq

/-- Embedding of `validateCrawlerConfig`: throw `MISSING_CONFIG` when the
config is absent, and `INVALID_URLS` when `config.urls` is absent
(JS `!undefined` is true) or empty.  No other field is inspected. -/
def validateCrawlerConfig (c : Option ReqBody) : Option ErrCode :=
  match c with
  | none => some .MISSING_CONFIG
  | some cfg =>
    match cfg.urls with
    | none => some .INVALID_URLS
    | some us => if us.length = 0 then some .INVALID_URLS else none

/-- Responses `createCrawlee` can produce: a queued job's id, or an HTTP
error status with the validation code. -/
inductive CreateResp where
  | ok (jobId : Nat)
  | err (status : Nat) (code : ErrCode)
deriving DecidableEq

/-- Embedding of `createCrawlee`: validate the body; on a validation
error reply 400 with the code and leave the queue untouched; otherwise
`queue.add({config})` and reply with the new job's id. -/
def createCrawlee (body : Option ReqBody) (queue : List ReqBody) : List ReqBody × CreateResp :=
  match validateCrawlerConfig body with
  | some e => (queue, .err 400 e)
  | none =>
    match body with
    | some cfg => (queue ++ [cfg], .ok (queue.length + 1))
    | none => (queue, .err 400 .MISSING_CONFIG)

/-- The `CrawlJobResult` the queue processor returns: the crawl id from
`crawler.crawleeId()`, `processedItems` from the dataset, and the
metadata timestamps. -/
structure CrawlJobResult where
  crawlId : Int
  processedItems : Nat
  metaStartedAt : Int
  metaCompletedAt : Int
deriving DecidableEq

/-- Embedding of the queue processor body in `setupQueueProcessing`: run
the crawler, take the dataset it returns, and build the result with
`crawlId := crawler.crawleeId()` (no argument, hence the completion-time
timestamp `now`) and `processedItems` the number of dataset items. -/
def runJob (w : World) (cfg : CrawlerConfig) (jobTimestamp now : Int) : CrawlJobResult :=
  let final := ecrawlerRun w cfg
  { crawlId := crawleeId none now
    processedItems := final.dataset.length
    metaStartedAt := jobTimestamp
    metaCompletedAt := now }

/-- A whole session's worth of `transformRequestFunction` invocations
(base URL, request URL pairs), threaded through `processedUrls`. -/
def applyTransforms (patterns : List String) (calls : List (String × String))
    (ps : List String) : List String :=
  calls.foldl (fun acc c => (transformRequest acc patterns c.1 c.2).1) ps

/-! ## Concrete drivers and configurations used to instantiate the claims -/

/-- A page driver that always reports a pagination next control: every
listing page's cards attach, carry no product links, the consent control
is dismissable, and clicking lands on the next page in the chain. -/
def alwaysNextWorld : World where
  defaultLoaded u := some u
  defaultLinks u :=
    if u = "https://www.example.com/" then ["https://www.example.com/cat/page1"] else []
  listingObs u :=
    { cardsAttach := true, productHrefs := [], acceptOk := true, nextCount := 1,
      clickOk := true, reloadOk := true,
      nextPageUrl :=
        if u = "https://www.example.com/cat/page1" then "https://www.example.com/cat/page2"
        else if u = "https://www.example.com/cat/page2" then "https://www.example.com/cat/page3"
        else if u = "https://www.example.com/cat/page3" then "https://www.example.com/cat/page4"
        else if u = "https://www.example.com/cat/page4" then "https://www.example.com/cat/page5"
        else if u = "https://www.example.com/cat/page5" then "https://www.example.com/cat/page6"
        else "https://www.example.com/cat/page7" }
  productObs _ := { nameFound := true, priceFound := true, eanLabelCount := 1, eanValueFound := true }

/-- Session configuration with `maxPages = 3` over `alwaysNextWorld`. -/
def boundedCfg : CrawlerConfig :=
  { startUrls := ["https://www.example.com/"]
    productListingUrlPatterns := ["https://www.example.com/cat"]
    productCardSelectors := ".product-card"
    productUrlPatterns := []
    paginationSelectors := ".next"
    productLinkSelectors := []
    maxPages := some 3
    nameSelector := "h1"
    priceSelector := ".price" }

/-- A driver with a four-page listing chain, one (fully extractable)
product per page, and no next control on the last page. -/
def fourProductsWorld : World where
  defaultLoaded u := some u
  defaultLinks u :=
    if u = "https://www.example.com/" then ["https://www.example.com/cat/page1"] else []
  listingObs u :=
    { cardsAttach := true
      productHrefs :=
        if u = "https://www.example.com/cat/page1" then ["https://www.example.com/p/1"]
        else if u = "https://www.example.com/cat/page2" then ["https://www.example.com/p/2"]
        else if u = "https://www.example.com/cat/page3" then ["https://www.example.com/p/3"]
        else if u = "https://www.example.com/cat/page4" then ["https://www.example.com/p/4"]
        else []
      acceptOk := true
      nextCount := if u = "https://www.example.com/cat/page4" then 0 else 1
      clickOk := true, reloadOk := true
      nextPageUrl :=
        if u = "https://www.example.com/cat/page1" then "https://www.example.com/cat/page2"
        else if u = "https://www.example.com/cat/page2" then "https://www.example.com/cat/page3"
        else if u = "https://www.example.com/cat/page3" then "https://www.example.com/cat/page4"
        else "https://www.example.com/cat/page5" }
  productObs _ := { nameFound := true, priceFound := true, eanLabelCount := 1, eanValueFound := true }

/-- Configuration for the four-product session. -/
def fourProductsCfg : CrawlerConfig :=
  { boundedCfg with maxPages := some 10 }

/-- A listing page whose consent control never becomes dismissable while
a next pagination control is present. -/
def consentFailPage : ListingPage :=
  { cardsAttach := true, productHrefs := [], acceptOk := false, nextCount := 1,
    clickOk := true, reloadOk := true, nextPageUrl := "https://www.example.com/cat/page2" }

/-- Driver serving `consentFailPage` on every listing URL. -/
def consentFailWorld : World :=
  { defaultLoaded := fun _ => none, defaultLinks := fun _ => [],
    listingObs := fun _ => consentFailPage,
    productObs := fun _ => { nameFound := true, priceFound := true, eanLabelCount := 1, eanValueFound := true } }

/-- A listing page exposing two product links and no next control. -/
def twoProductsPage : ListingPage :=
  { cardsAttach := true
    productHrefs := ["https://www.example.com/p/1", "https://www.example.com/p/2"]
    acceptOk := true, nextCount := 0, clickOk := true, reloadOk := true, nextPageUrl := "" }

/-- Driver serving `twoProductsPage` on every listing URL. -/
def twoProductsWorld : World :=
  { consentFailWorld with listingObs := fun _ => twoProductsPage }

/-- The empty session state (no seeded start URLs). -/
def emptyState : CrawlState := initState []

/-- A product page whose EAN label is absent (name and price resolve). -/
def noEanPage : ProductPage :=
  { nameFound := true, priceFound := true, eanLabelCount := 0, eanValueFound := false }

/-- A driver whose product pages all lack the EAN label. -/
def noEanWorld : World :=
  { consentFailWorld with productObs := fun _ => noEanPage }

/-- A request body carrying every field of the `CrawlerConfig` interface
(non-empty `startUrls`, all selectors and patterns present).  Because the
interface has no `urls` member, a well-typed body has `urls := none`. -/
def wellFormedBody : ReqBody :=
  { urls := none
    startUrls := some ["https://www.example.com/"]
    productListingUrlPatterns := some ["https://www.example.com/cat"]
    productCardSelectors := some ".product-card"
    productUrlPatterns := some ["/p/"]
    paginationSelectors := some ".next"
    productLinkSelectors := some [".product-card a"]
    maxPages := some 100
    nameSelector := some "h1"
    priceSelector := some ".price" }

/-- The same body with empty `startUrls` (the invalid submission of the
claim). -/
def emptyStartBody : ReqBody :=
  { wellFormedBody with startUrls := some [] }

/-- A session state whose queue holds one `listing` request. -/
def listingHeadState : CrawlState :=
  { zeroState with queue := [⟨"https://www.example.com/cat/page1", some "listing"⟩] }

/-- A session state whose queue holds one `product` request. -/
def productHeadState : CrawlState :=
  { zeroState with queue := [⟨"https://www.example.com/p/1", some "product"⟩] }

/-- A session state whose request queue already knows one uniqueKey. -/
def knownState : CrawlState :=
  { zeroState with known := ["https://www.example.com/p/1"] }

/-! ## Structural lemmas about the session step functions -/

theorem foldl_g_preserved {α β γ : Type} (g : β → γ) (f : β → α → β)
    (h : ∀ st a, g (f st a) = g st) : ∀ (l : List α) (s : β), g (List.foldl f s l) = g s := by
  intro l
  induction l with
  | nil => intro s; rfl
  | cons a t ih => intro s; rw [List.foldl_cons, ih, h]

theorem addRequest_handled (s : CrawlState) (r : Req) : (addRequest s r).handled = s.handled := by
  unfold addRequest; split <;> rfl

theorem addRequest_pageCount (s : CrawlState) (r : Req) : (addRequest s r).pageCount = s.pageCount := by
  unfold addRequest; split <;> rfl

theorem addRequest_clicks (s : CrawlState) (r : Req) : (addRequest s r).clicks = s.clicks := by
  unfold addRequest; split <;> rfl

theorem defaultEnqueueF_handled (patterns : List String) (baseUrl : String)
    (p : CrawlState × Nat) (link : String) :
    (defaultEnqueueF patterns baseUrl p link).1.handled = p.1.handled := by
  unfold defaultEnqueueF
  dsimp only
  split
  · split <;> simp [addRequest_handled]
  · rfl

theorem defaultEnqueueF_pageCount (patterns : List String) (baseUrl : String)
    (p : CrawlState × Nat) (link : String) :
    (defaultEnqueueF patterns baseUrl p link).1.pageCount = p.1.pageCount := by
  unfold defaultEnqueueF
  dsimp only
  split
  · split <;> simp [addRequest_pageCount]
  · rfl

theorem defaultEnqueue_handled (patterns : List String) (baseUrl : String) (links : List String)
    (s : CrawlState) : (defaultEnqueue patterns baseUrl links s).handled = s.handled := by
  unfold defaultEnqueue
  exact foldl_g_preserved (fun p => p.1.handled) (defaultEnqueueF patterns baseUrl)
    (fun st a => defaultEnqueueF_handled ..) links (s, 0)

theorem defaultEnqueue_pageCount (patterns : List String) (baseUrl : String) (links : List String)
    (s : CrawlState) : (defaultEnqueue patterns baseUrl links s).pageCount = s.pageCount := by
  unfold defaultEnqueue
  exact foldl_g_preserved (fun p => p.1.pageCount) (defaultEnqueueF patterns baseUrl)
    (fun st a => defaultEnqueueF_pageCount ..) links (s, 0)

theorem defaultHandler_handled (w : World) (patterns : List String) (s : CrawlState) (url : String) :
    (defaultHandler w patterns s url).handled = s.handled := by
  unfold defaultHandler
  split
  · rfl
  · exact defaultEnqueue_handled ..

theorem defaultHandler_pageCount (w : World) (patterns : List String) (s : CrawlState) (url : String) :
    (defaultHandler w patterns s url).pageCount = s.pageCount := by
  unfold defaultHandler
  split
  · rfl
  · exact defaultEnqueue_pageCount ..

theorem enqueueProducts_handled (hrefs : List String) (s : CrawlState) :
    (enqueueProducts hrefs s).handled = s.handled := by
  unfold enqueueProducts
  split
  · exact foldl_g_preserved (fun st => st.handled) enqueueProduct
      (fun st a => addRequest_handled ..) _ s
  · rfl

theorem enqueueProducts_pageCount (hrefs : List String) (s : CrawlState) :
    (enqueueProducts hrefs s).pageCount = s.pageCount := by
  unfold enqueueProducts
  split
  · exact foldl_g_preserved (fun st => st.pageCount) enqueueProduct
      (fun st a => addRequest_pageCount ..) _ s
  · rfl

theorem enqueueProducts_clicks (hrefs : List String) (s : CrawlState) :
    (enqueueProducts hrefs s).clicks = s.clicks := by
  unfold enqueueProducts
  split
  · exact foldl_g_preserved (fun st => st.clicks) enqueueProduct
      (fun st a => addRequest_clicks ..) _ s
  · rfl

theorem listingStep_handled (w : World) (s : CrawlState) (url : String) :
    (listingStep w s url).handled = s.handled := by
  unfold listingStep
  dsimp only
  split
  · rfl
  · split
    · exact enqueueProducts_handled ..
    · split
      · split <;> simp [addRequest_handled, enqueueProducts_handled]
      · exact enqueueProducts_handled ..

theorem listingStep_pageCount (w : World) (s : CrawlState) (url : String) :
    (listingStep w s url).pageCount = s.pageCount := by
  unfold listingStep
  dsimp only
  split
  · rfl
  · split
    · exact enqueueProducts_pageCount ..
    · split
      · split <;> simp [addRequest_pageCount, enqueueProducts_pageCount]
      · exact enqueueProducts_pageCount ..

theorem productStep_handled (w : World) (s : CrawlState) (url : String) :
    (productStep w s url).handled = s.handled := by
  unfold productStep; split <;> rfl

theorem productStep_pageCount (w : World) (s : CrawlState) (url : String) :
    (productStep w s url).pageCount = s.pageCount := by
  unfold productStep; split <;> rfl

theorem crawlStep_handled_cons (w : World) (patterns : List String) (s : CrawlState)
    (r : Req) (rest : List Req) (hq : s.queue = r :: rest) :
    (crawlStep w patterns s).handled = s.handled + 1 := by
  unfold crawlStep
  rw [hq]
  dsimp only
  cases r.label with
  | none => rw [defaultHandler_handled]
  | some l =>
    dsimp only
    split
    · rw [listingStep_handled]
    · split
      · rw [productStep_handled]
      · rfl

theorem crawlStep_pageCount (w : World) (patterns : List String) (s : CrawlState) :
    (crawlStep w patterns s).pageCount = s.pageCount := by
  unfold crawlStep
  cases hq : s.queue with
  | nil => rfl
  | cons r rest =>
    dsimp only
    cases r.label with
    | none => rw [defaultHandler_pageCount]
    | some l =>
      dsimp only
      split
      · rw [listingStep_pageCount]
      · split
        · rw [productStep_pageCount]
        · rfl

theorem crawlRunFuel_pageCount (w : World) (patterns : List String) (maxR : Nat) :
    ∀ (fuel : Nat) (s : CrawlState),
    (crawlRunFuel w patterns maxR fuel s).pageCount = s.pageCount := by
  intro fuel
  induction fuel with
  | zero => intro s; rfl
  | succ n ih =>
    intro s
    unfold crawlRunFuel
    cases hq : s.queue with
    | nil => rfl
    | cons r rest =>
      dsimp only
      split
      · rw [ih, crawlStep_pageCount]
      · rfl

theorem crawlRunFuel_handled_le (w : World) (patterns : List String) (maxR : Nat) :
    ∀ (fuel : Nat) (s : CrawlState),
    (crawlRunFuel w patterns maxR fuel s).handled ≤ max s.handled maxR := by
  intro fuel
  induction fuel with
  | zero => intro s; exact Nat.le_max_left _ _
  | succ n ih =>
    intro s
    unfold crawlRunFuel
    cases hq : s.queue with
    | nil => exact Nat.le_max_left _ _
    | cons r rest =>
      dsimp only
      split
      · refine le_trans (ih (crawlStep w patterns s)) ?_
        rw [crawlStep_handled_cons w patterns s r rest hq]
        have hmax : max (s.handled + 1) maxR = maxR := Nat.max_eq_right (by omega)
        rw [hmax]
        exact Nat.le_max_right _ _
      · exact Nat.le_max_left _ _

theorem initState_handled (startUrls : List String) : (initState startUrls).handled = 0 := by
  unfold initState
  exact foldl_g_preserved (fun st => st.handled) seedRequest
    (fun st a => addRequest_handled ..) startUrls zeroState

theorem initState_pageCount (startUrls : List String) : (initState startUrls).pageCount = 0 := by
  unfold initState
  exact foldl_g_preserved (fun st => st.pageCount) seedRequest
    (fun st a => addRequest_pageCount ..) startUrls zeroState

theorem transformRequest_mem_none (ps patterns : List String) (base u : String)
    (h : ps.contains (normalizeUrl u base) = true) :
    (transformRequest ps patterns base u).2 = none := by
  unfold transformRequest
  simp at h
  simp [h]

theorem transformRequest_kept (ps patterns : List String) (base u : String)
    (h : (transformRequest ps patterns base u).2 = some u) :
    (transformRequest ps patterns base u).1 = ps ++ [normalizeUrl u base] := by
  unfold transformRequest at h ⊢
  by_cases hm : normalizeUrl u base ∈ ps
  · simp [hm] at h
  · by_cases hl : isListingUrl (normalizeUrl u base) patterns = true
    · simp [hm, hl]
    · simp [hm, hl] at h

theorem transformRequest_nodup (ps patterns : List String) (base u : String) (h : ps.Nodup) :
    (transformRequest ps patterns base u).1.Nodup := by
  unfold transformRequest
  dsimp only
  split
  · next hc =>
    have hmem : normalizeUrl u base ∉ ps := by
      have h1 := ((Bool.and_eq_true _ _).mp hc).1
      simp at h1
      exact h1
    simp [List.nodup_append, h, hmem]
  · exact h

theorem addRequest_known_noop (s : CrawlState) (r : Req) (h : s.known.contains r.url = true) :
    addRequest s r = s := by
  unfold addRequest
  simp at h
  simp [h]

theorem productStep_queue (w : World) (s : CrawlState) (url : String) :
    (productStep w s url).queue = s.queue := by
  unfold productStep; split <;> rfl

theorem productStep_dataset (w : World) (s : CrawlState) (url : String) :
    (productStep w s url).dataset = s.dataset := by
  unfold productStep; split <;> rfl

theorem productStep_extractedOk_failed (w : World) (s : CrawlState) (url : String)
    (h : (productHandler (w.productObs url)).failed = true) :
    (productStep w s url).extractedOk = s.extractedOk := by
  unfold productStep
  simp [h]

theorem listingStep_no_next (w : World) (s : CrawlState) (url : String)
    (hc : (w.listingObs url).cardsAttach = true)
    (hac : (w.listingObs url).acceptOk = true)
    (hn0 : (w.listingObs url).nextCount = 0) :
    listingStep w s url =
      enqueueProducts (w.listingObs url).productHrefs
        { s with listingVisits := s.listingVisits ++ [url] } := by
  unfold listingStep
  simp [hc, hac, hn0]

theorem enqueueProducts_queue_len (hrefs : List String) (s : CrawlState) :
    (enqueueProducts hrefs s).queue.length ≤ s.queue.length + 1 := by
  unfold enqueueProducts
  split
  · cases hrefs with
    | nil => simp
    | cons p t =>
      simp only [List.take, List.foldl]
      unfold enqueueProduct addRequest
      split
      · omega
      · simp
  · omega

/-! ## Claim theorems -/

/-- C1, counterexample.  The claim says a session with `maxPages = 3`
against an always-next driver visits exactly pages 1–3, settles
exhausted, and never clicks/re-enqueues past that bound.  In the
embedded run the session visits listing pages 1 through 5 (the only
bound is `maxRequestsPerCrawl = maxPages * 2 = 6` on total handled
requests), issues five pagination clicks — including the clicks on
pages 3, 4 and 5 that the claim forbids — and leaves page 6 enqueued. -/
theorem alwaysNext_visits_five_pages :
    (ecrawlerRun alwaysNextWorld boundedCfg).listingVisits =
      ["https://www.example.com/cat/page1", "https://www.example.com/cat/page2",
       "https://www.example.com/cat/page3", "https://www.example.com/cat/page4",
       "https://www.example.com/cat/page5"]
  ∧ (ecrawlerRun alwaysNextWorld boundedCfg).clicks = 5
  ∧ (ecrawlerRun alwaysNextWorld boundedCfg).queue =
      [⟨"https://www.example.com/cat/page6", some "listing"⟩]
  ∧ boundedCfg.maxPages = some 3 := by
  refine ⟨by decide, by decide, by decide, by decide⟩

/-- C1, amended.  The `pageCount` field is never incremented by any
handler, so it stays 0 for the whole session — `pageCount ≤ maxPages`
holds only vacuously — and the sole pagination bound the code enforces
is the crawler-level `maxRequestsPerCrawl = maxPages * 2` cap on the
number of handled requests (listing and product requests combined). -/
theorem handled_requests_bounded_pageCount_static (w : World) (cfg : CrawlerConfig) :
    (ecrawlerRun w cfg).pageCount = 0
  ∧ (ecrawlerRun w cfg).pageCount ≤ cfg.maxPages.getD 1000
  ∧ (ecrawlerRun w cfg).handled ≤ cfg.maxPages.getD 1000 * 2 := by
  have hpc : (ecrawlerRun w cfg).pageCount = 0 := by
    unfold ecrawlerRun
    rw [crawlRunFuel_pageCount, initState_pageCount]
  refine ⟨hpc, by rw [hpc]; exact Nat.zero_le _, ?_⟩
  unfold ecrawlerRun
  have hb := crawlRunFuel_handled_le w cfg.productListingUrlPatterns
    (cfg.maxPages.getD 1000 * 2) (cfg.maxPages.getD 1000 * 2) (initState cfg.startUrls)
  rw [initState_handled] at hb
  simpa using hb

/-- C2.  Submitting the same URL twice (equal after normalization
against the page's base URL) yields at most one visit: a URL whose
normalization is already in `processedUrls` is filtered out by the
transform; in particular a second submission normalizing like a kept
first one is rejected; `processedUrls` stays duplicate-free across any
sequence of transform invocations; and re-adding a known uniqueKey to
the request queue is a no-op. -/
theorem transform_dedup_and_nodup :
    (∀ (ps patterns : List String) (base u : String),
      ps.contains (normalizeUrl u base) = true → (transformRequest ps patterns base u).2 = none)
  ∧ (∀ (ps patterns : List String) (base u1 u2 : String),
      normalizeUrl u1 base = normalizeUrl u2 base →
      (transformRequest ps patterns base u1).2 = some u1 →
      (transformRequest (transformRequest ps patterns base u1).1 patterns base u2).2 = none)
  ∧ (∀ (patterns : List String) (calls : List (String × String)) (ps : List String),
      ps.Nodup → (applyTransforms patterns calls ps).Nodup)
  ∧ (∀ (s : CrawlState) (r : Req), s.known.contains r.url = true → addRequest s r = s) := by
  refine ⟨transformRequest_mem_none, ?_, ?_, addRequest_known_noop⟩
  · intro ps patterns base u1 u2 hn h1
    rw [transformRequest_kept ps patterns base u1 h1]
    apply transformRequest_mem_none
    rw [← hn]
    simp
  · intro patterns calls
    induction calls with
    | nil => intro ps h; exact h
    | cons c t ih =>
      intro ps h
      unfold applyTransforms
      rw [List.foldl_cons]
      exact ih _ (transformRequest_nodup ps patterns c.1 c.2 h)

/-- C2, witness: the relative reference `./cat?x=1` and the absolute
`https://shop.example.com/cat?x=1` normalize identically against the
base `https://shop.example.com/cat`, and the second submission is
deduplicated. -/
theorem transform_dedup_and_nodup_witness :
    (transformRequest ["https://shop.example.com/cat?x=1"] ["https://www.example.com/cat"]
      "https://shop.example.com/cat" "./cat?x=1").2 = none
  ∧ (transformRequest
      (transformRequest [] ["https://www.example.com/cat"] "https://shop.example.com/cat"
        "./cat?x=1").1
      ["https://www.example.com/cat"] "https://shop.example.com/cat"
      "https://shop.example.com/cat?x=1").2 = none
  ∧ (applyTransforms ["https://www.example.com/cat"]
      [("https://shop.example.com/cat", "./cat?x=1"),
       ("https://shop.example.com/cat", "https://shop.example.com/cat?x=1")] []).Nodup
  ∧ addRequest knownState ⟨"https://www.example.com/p/1", some "product"⟩ = knownState := by
  refine ⟨transform_dedup_and_nodup.1 _ _ _ _ (by decide),
    transform_dedup_and_nodup.2.1 _ _ _ _ _ (by decide) (by decide),
    transform_dedup_and_nodup.2.2.1 _ _ _ (by decide),
    transform_dedup_and_nodup.2.2.2 _ _ (by decide)⟩

/-- C3.  In a session that successfully extracts four products (the
observation counter reaches 4), the job result nevertheless reports
`processedItems = 0`: the product handler's `Dataset.pushData` call is
commented out in the source, so the dataset stays empty and
`datasetItems.length` counts nothing, contradicting the claim that
`processedItems` equals the number of extracted products. -/
theorem extracted_four_but_processedItems_zero :
    (ecrawlerRun fourProductsWorld fourProductsCfg).extractedOk = 4
  ∧ (ecrawlerRun fourProductsWorld fourProductsCfg).dataset = []
  ∧ (runJob fourProductsWorld fourProductsCfg 0 1700000000000).processedItems = 0 := by
  refine ⟨by decide, by decide, by decide⟩

/-- C4.  `validateCrawlerConfig` checks `config.urls`, a field that does
not exist on the `CrawlerConfig` interface (which declares `startUrls`),
so a fully well-formed config — non-empty `startUrls`, every
selector/pattern field present — is rejected with `INVALID_URLS` and no
job is enqueued; a config with empty `startUrls` is rejected the same
way (for the wrong reason), and an absent config yields
`MISSING_CONFIG`. -/
theorem createCrawlee_rejects_valid_config :
    createCrawlee (some wellFormedBody) [] = ([], .err 400 .INVALID_URLS)
  ∧ createCrawlee (some emptyStartBody) [] = ([], .err 400 .INVALID_URLS)
  ∧ wellFormedBody.startUrls = some ["https://www.example.com/"]
  ∧ wellFormedBody.urls = none
  ∧ validateCrawlerConfig none = some .MISSING_CONFIG := by
  refine ⟨by decide, by decide, by decide, by decide, by decide⟩

/-- C5.  Classification against the pattern set
`{https://www.example.com/cat}`: `https://shop.example.com/any` matches
(same registrable domain, different subdomain),
`https://example.org/any` does not, the match is case-insensitive, and
the derived matcher is precisely the remaining-domain list
`["example", "com"]` obtained by dropping the pattern host's leftmost
label (no path component participates). -/
theorem registrable_domain_classification :
    isProductUrl "https://shop.example.com/any" ["https://www.example.com/cat"] = true
  ∧ isProductUrl "https://example.org/any" ["https://www.example.com/cat"] = false
  ∧ isListingUrl "HTTPS://SHOP.EXAMPLE.COM/ANY" ["https://www.example.com/cat"] = true
  ∧ createRegexFromUrl "https://www.example.com/cat" = some ["example", "com"] := by
  refine ⟨by decide, by decide, by decide, by decide⟩

/-- C6, counterexample.  The claim says a one-label pattern host yields
a regex accepting exactly the bare host.  For the one-label pattern host
`localhost`, the derived regex `^https?://[\w-]+\.` rejects the bare
host itself (`https://localhost/cat`) and accepts the unrelated
two-label host `https://a.b/x` — both directions of the claimed
equivalence fail. -/
theorem one_label_pattern_counterexample :
    isProductUrl "https://localhost/cat" ["https://localhost/cat"] = false
  ∧ isProductUrl "https://a.b/x" ["https://localhost/cat"] = true
  ∧ hostLabels "https://localhost/cat" = some ["localhost"] := by
  refine ⟨by decide, by decide, by decide⟩

/-- C6, amended.  A pattern whose hostname is a single label yields the
empty remaining-domain list, i.e. the regex `^https?://[\w-]+\.`; that
regex rejects the bare one-label host itself and accepts any http(s)
URL whose host starts with a `[\w-]+` label followed by a dot,
regardless of the pattern's own host. -/
theorem one_label_pattern_amended :
    (∀ (pat : String) (l : String), hostLabels pat = some [l] → createRegexFromUrl pat = some [])
  ∧ isProductUrl "https://localhost/x" ["https://localhost/cat"] = false
  ∧ isProductUrl "https://sub.localhost/x" ["https://localhost/cat"] = true
  ∧ isProductUrl "https://anything.else/x" ["https://localhost/cat"] = true := by
  refine ⟨?_, by decide, by decide, by decide⟩
  intro pat l h
  unfold createRegexFromUrl
  rw [h]
  rfl

/-- C6, witness for the amended theorem at the pattern
`https://localhost/cat`. -/
theorem one_label_pattern_amended_witness :
    createRegexFromUrl "https://localhost/cat" = some [] :=
  one_label_pattern_amended.1 "https://localhost/cat" "localhost" (by decide)

/-- C7, counterexample.  The claim says a failed consent dismissal is
non-fatal and the pagination click is still attempted.  On a listing
page whose cards attach and whose next control exists but whose accept
control never becomes dismissable, the handler issues no pagination
click and no re-enqueue: the throw from `clickAcceptButton` lands in
the handler's outer catch, which skips the whole pagination block. -/
theorem accept_absent_blocks_pagination :
    (listingStep consentFailWorld emptyState "https://www.example.com/cat/page1").clicks = 0
  ∧ (listingStep consentFailWorld emptyState "https://www.example.com/cat/page1").queue = []
  ∧ consentFailPage.nextCount = 1
  ∧ consentFailPage.cardsAttach = true
  ∧ consentFailPage.acceptOk = false := by
  refine ⟨by decide, by decide, by decide, by decide, by decide⟩

/-- C7, amended.  The consent-dismissal step runs before each pagination
click; when it fails no pagination click is attempted for that listing
(the outer catch swallows the error), when it succeeds with a next
control present the click is attempted; the failure stays confined to
the handler — the session consumes the listing request and continues. -/
theorem consent_dismissal_gates_click (w : World) (s : CrawlState) (url : String) :
    ((w.listingObs url).acceptOk = false → (listingStep w s url).clicks = s.clicks)
  ∧ ((w.listingObs url).cardsAttach = true → (w.listingObs url).acceptOk = true →
      0 < (w.listingObs url).nextCount → (listingStep w s url).clicks = s.clicks + 1)
  ∧ (∀ (patterns : List String) (rest : List Req),
      s.queue = ⟨url, some "listing"⟩ :: rest →
      (crawlStep w patterns s).handled = s.handled + 1) := by
  refine ⟨?_, ?_, ?_⟩
  · intro ha
    unfold listingStep
    dsimp only
    split
    · rfl
    · simp [ha, enqueueProducts_clicks]
  · intro hc hac hn
    unfold listingStep
    simp only [hc, hac, Bool.not_true, Bool.false_eq_true, if_false, hn, if_pos]
    split <;> simp [addRequest_clicks, enqueueProducts_clicks]
  · intro patterns rest hq
    exact crawlStep_handled_cons w patterns s _ rest hq

/-- C7, witness: the dismissal-failure case on `consentFailWorld`
(no click), the success case on `alwaysNextWorld` (one click), and the
session consuming a listing request after a dismissal failure. -/
theorem consent_dismissal_gates_click_witness :
    (listingStep consentFailWorld emptyState "https://www.example.com/cat/page1").clicks =
      emptyState.clicks
  ∧ (listingStep alwaysNextWorld emptyState "https://www.example.com/cat/page1").clicks =
      emptyState.clicks + 1
  ∧ (crawlStep consentFailWorld [] listingHeadState).handled = listingHeadState.handled + 1 :=
  ⟨(consent_dismissal_gates_click consentFailWorld emptyState _).1 (by decide),
   (consent_dismissal_gates_click alwaysNextWorld emptyState _).2.1 (by decide) (by decide)
     (by decide),
   (consent_dismissal_gates_click consentFailWorld listingHeadState
      "https://www.example.com/cat/page1").2.2 [] [] (by decide)⟩

/-- C8, counterexample.  The claim says up to 100 product URLs are
enqueued per listing page and all discovered ones below that bound are
enqueued.  A listing page exposing two product hrefs gets exactly one of
them enqueued: the listing handler's product `enqueueLinks` uses
`limit: 1` (the 100 bound belongs to the default handler's listing-link
enqueue). -/
theorem two_products_one_enqueued :
    (listingStep twoProductsWorld emptyState "https://www.example.com/cat/list").queue =
      [⟨"https://www.example.com/p/1", some "product"⟩]
  ∧ twoProductsPage.productHrefs.length = 2 := by
  refine ⟨by decide, by decide⟩

/-- C8, amended.  The per-listing-page product fan-out bound is 1: each
listing page enqueues at most one product request, namely the first
discovered product href (when its uniqueKey is new). -/
theorem product_fanout_limit_one (w : World) (s : CrawlState) (url : String) :
    ((w.listingObs url).cardsAttach = true → (w.listingObs url).acceptOk = true →
      (w.listingObs url).nextCount = 0 →
      (listingStep w s url).queue.length ≤ s.queue.length + 1)
  ∧ (∀ (p : String) (ps' : List String),
      (w.listingObs url).productHrefs = p :: ps' →
      s.known.contains p = false →
      (w.listingObs url).cardsAttach = true → (w.listingObs url).acceptOk = true →
      (w.listingObs url).nextCount = 0 →
      (listingStep w s url).queue = s.queue ++ [⟨p, some "product"⟩]) := by
  constructor
  · intro hc hac hn0
    rw [listingStep_no_next w s url hc hac hn0]
    exact enqueueProducts_queue_len ..
  · intro p ps' hp hk hc hac hn0
    rw [listingStep_no_next w s url hc hac hn0, hp]
    unfold enqueueProducts
    simp only [List.length_cons, List.take, List.foldl]
    unfold enqueueProduct addRequest
    simp at hk
    simp [hk]

/-- C8, witness at the two-product listing page: only the first href is
enqueued. -/
theorem product_fanout_limit_one_witness :
    (listingStep twoProductsWorld emptyState "https://www.example.com/cat/list").queue.length ≤
      emptyState.queue.length + 1
  ∧ (listingStep twoProductsWorld emptyState "https://www.example.com/cat/list").queue =
      emptyState.queue ++ [⟨"https://www.example.com/p/1", some "product"⟩] :=
  ⟨(product_fanout_limit_one twoProductsWorld emptyState _).1 (by decide) (by decide) (by decide),
   (product_fanout_limit_one twoProductsWorld emptyState _).2 "https://www.example.com/p/1"
     ["https://www.example.com/p/2"] (by decide) (by decide) (by decide) (by decide) (by decide)⟩

/-- C9.  A missing mandatory name locator or a missing EAN label makes
that product's extraction fail inside the product handler (the throw is
caught there, no record is pushed), and the session continues: handling
the failed product request consumes exactly that queue entry, leaves
the dataset unchanged, and advances the handled counter — the failure
never escapes the session. -/
theorem extraction_failure_isolated (pp : ProductPage) (w : World) (patterns : List String)
    (s : CrawlState) (u : String) (rest : List Req) :
    (pp.nameFound = false ∨ pp.eanLabelCount = 0 →
      (productHandler pp).failed = true ∧ (productHandler pp).pushed = false)
  ∧ (s.queue = ⟨u, some "product"⟩ :: rest →
      (crawlStep w patterns s).queue = rest
      ∧ (crawlStep w patterns s).handled = s.handled + 1
      ∧ (crawlStep w patterns s).dataset = s.dataset
      ∧ ((productHandler (w.productObs u)).failed = true →
          (crawlStep w patterns s).extractedOk = s.extractedOk)) := by
  constructor
  · intro h
    unfold productHandler
    rcases h with h | h <;>
      cases hn : pp.nameFound <;> cases hp : pp.priceFound <;> simp_all
  · intro hq
    unfold crawlStep
    rw [hq]
    dsimp only
    rw [if_neg (by decide), if_pos rfl]
    refine ⟨productStep_queue .., productStep_handled .., productStep_dataset .., ?_⟩
    intro hf
    exact productStep_extractedOk_failed _ _ _ hf

/-- C9, witness on a product page without an EAN label, at the front of
a one-request queue. -/
theorem extraction_failure_isolated_witness :
    ((productHandler noEanPage).failed = true ∧ (productHandler noEanPage).pushed = false)
  ∧ (crawlStep noEanWorld [] productHeadState).queue = []
  ∧ (crawlStep noEanWorld [] productHeadState).handled = productHeadState.handled + 1
  ∧ (crawlStep noEanWorld [] productHeadState).dataset = productHeadState.dataset
  ∧ (crawlStep noEanWorld [] productHeadState).extractedOk = productHeadState.extractedOk := by
  have h := extraction_failure_isolated noEanPage noEanWorld [] productHeadState
    "https://www.example.com/p/1" []
  have h2 := h.2 (by decide)
  exact ⟨h.1 (Or.inr (by decide)), h2.1, h2.2.1, h2.2.2.1, h2.2.2.2 (by decide)⟩

/-- C10.  `crawleeId` returns every nonzero numeric argument unchanged,
and both a missing argument and `0` fall through to the
epoch-millisecond timestamp (so `crawleeId(0)` is not `0` whenever the
clock is not at the epoch); the `crawlId` on a job result is exactly the
completion-time timestamp, so two jobs completing in the same
millisecond receive the same id. -/
theorem crawleeId_behavior :
    (∀ (i now : Int), i ≠ 0 → crawleeId (some i) now = i)
  ∧ (∀ now : Int, crawleeId none now = now)
  ∧ (∀ now : Int, crawleeId (some 0) now = now)
  ∧ (∀ (w : World) (cfg : CrawlerConfig) (t now : Int), (runJob w cfg t now).crawlId = now)
  ∧ (∀ (w1 w2 : World) (c1 c2 : CrawlerConfig) (t1 t2 now : Int),
      (runJob w1 c1 t1 now).crawlId = (runJob w2 c2 t2 now).crawlId) := by
  refine ⟨?_, fun now => rfl, ?_, ?_, ?_⟩
  · intro i now h
    simp [crawleeId, h]
  · intro now
    simp [crawleeId]
  · intro w cfg t now
    rfl
  · intro w1 w2 c1 c2 t1 t2 now
    rfl

/-- C10, witness: `crawleeId` at 42, at a missing argument, and at 0. -/
theorem crawleeId_behavior_witness :
    crawleeId (some 42) 7 = 42 ∧ crawleeId none 7 = 7 ∧ crawleeId (some 0) 7 = 7 :=
  ⟨crawleeId_behavior.1 42 7 (by decide), crawleeId_behavior.2.1 7, crawleeId_behavior.2.2.1 7⟩
